import Mathlib

/-!
Shallow embedding of the AuthKit credential core.

The repository keeps several near-duplicate revisions of the same controller
concatenated in one file; this development embeds the tenant-aware revision of
`src/controllers/auth.controller.js` (lines 45-454, the revision the data model
describes) together with the tenant-aware `authMiddleware` revision
(`src/unnamed/part_002`) and `src/middlewares/role.middleware.js`.

Modelling conventions:
- The document store is a `List UserRec`; `findOne` is `List.find?` and a
  `findOne` + mutate + `save` round trip is `updateFirst` (the first matching
  record is replaced, as Mongo does when `_id` is unique).
- Timestamps are `Nat` milliseconds; Mongo's `tokenExpires: { $gt: now }`
  becomes `now < e`.
- External collaborators are parameters, not re-implemented: bcrypt digests
  arrive as opaque strings (`hashedPassword` argument) and comparison is a
  `compare : String → String → Bool` parameter; the random token from
  `crypto.randomBytes` is a `tok` argument; `jwt.verify` is a
  `verify : String → JwtOutcome` parameter.  Email delivery is assumed to
  succeed (its failure paths involve no store change relevant to the claims).
- The Joi email grammar is an external library; `joiEmailValid` is a
  stand-in for it (nonempty local part, domain with a dot), used only inside
  the validation predicates that claims take as hypotheses.
- The user record carries the fields the embedded controller revision reads
  and persists (`tenantId`, `verificationToken`, `tokenExpires`) plus the
  schema defaults of `src/models/user.model.js` (`role := "user"`,
  `isVerified := false`, `provider := "local"`, `resetToken := null`).
-/

/-- One user document, per `src/models/user.model.js` plus the fields the
tenant-aware controller persists at creation. -/
structure UserRec where
  id : Nat
  name : String
  email : String
  password : String
  tenantId : String
  role : String
  isVerified : Bool
  verificationToken : Option String
  resetToken : Option String
  tokenExpires : Option Nat
  provider : String
  avatarURL : Option String
deriving DecidableEq

/-- Claims of the session JWT minted at login (`generateToken` payload). -/
structure SessionClaims where
  userId : Nat
  email : String
  role : String
  tenantId : String
deriving DecidableEq

/-- A `{status, payload}` result as the controllers produce it.  HTML pages
are represented by their distinguishing headline string. -/
structure ApiResponse where
  status : Nat
  message : String
  needsVerification : Bool := false
  token : Option SessionClaims := none
deriving DecidableEq

/-- JavaScript `String.prototype.trim` (a language builtin), over the
character list so the kernel can evaluate it. -/
def jsTrim (s : String) : String :=
  ⟨((s.data.dropWhile Char.isWhitespace).reverse.dropWhile Char.isWhitespace).reverse⟩

/-- JavaScript `String.prototype.toLowerCase` (a language builtin). -/
def jsToLower (s : String) : String := ⟨s.data.map Char.toLower⟩

/-- Model of `email.trim().toLowerCase()` as both register and login apply it. -/
def normalizeEmail (e : String) : String := jsToLower (jsTrim e)

/-- Model of `req.tenantId || 'default'` — an absent or empty tenant id falls back to
the literal `"default"`. -/
def resolveTenant (t : String) : String := if t = "" then "default" else t

/-- Split a character list at every occurrence of `c`
(JavaScript `String.prototype.split`). -/
def splitOnChar (c : Char) : List Char → List (List Char)
  | [] => [[]]
  | x :: xs =>
    if x = c then [] :: splitOnChar c xs
    else
      match splitOnChar c xs with
      | [] => [[x]]
      | h :: t => (x :: h) :: t

/-- Stand-in for the external Joi email validator (`Joi.string().email()`):
one `@` with a nonempty local part and a dotted nonempty domain. -/
def joiEmailValid (e : String) : Bool :=
  match splitOnChar '@' (jsTrim e).data with
  | [l, d] => !l.isEmpty && !d.isEmpty && d.contains '.'
  | _ => false

/-- Request body of `POST /register`; `role` and `provider` stand for extra
fields a caller might send — the handler destructures only
`{ name, email, password }`. -/
structure RegisterBody where
  name : String
  email : String
  password : String
  role : Option String := none
  provider : Option String := none
deriving DecidableEq

/-- Predicate for `registerSchema.validate(req.body)` succeeding. -/
def registerSchemaValid (b : RegisterBody) : Bool :=
  jsTrim b.name ≠ "" && joiEmailValid b.email && decide (6 ≤ b.password.length)

/-- First Joi error message for a failing register body. -/
def registerValidationMsg (b : RegisterBody) : String :=
  if jsTrim b.name = "" then "Name is required"
  else if !joiEmailValid b.email then
    (if jsTrim b.email = "" then "Email is required" else "Email must be valid")
  else "Password must be at least 6 characters"

/-- The `findOne({ email, tenantId })` filter used by register, login and
forgot-password (email normalized, tenant resolved). -/
def emailTenantQ (reqTenantId e : String) (u : UserRec) : Bool :=
  u.email == normalizeEmail e && u.tenantId == resolveTenant reqTenantId

/-- Verification-token TTL minted by `registerUser`
(`Date.now() + 24 * 60 * 60 * 1000`, auth.controller.js line 70). -/
def verificationTTLms : Nat := 24 * 60 * 60 * 1000

/-- Reset-token TTL minted by `forgotPassword`
(`Date.now() + 24 * 60 * 60 * 1000`, auth.controller.js line 314). -/
def resetTTLms : Nat := 24 * 60 * 60 * 1000

/-- The document `new User({name, email, password, tenantId,
verificationToken, tokenExpires})` built by `registerUser` (lines 73-80),
with the remaining fields filled by the schema defaults of
`src/models/user.model.js`. -/
def mkRegisteredUser (now freshId : Nat)
    (tok hashedPassword reqTenantId : String) (b : RegisterBody) : UserRec :=
  { id := freshId
    name := b.name
    email := normalizeEmail b.email
    password := hashedPassword
    tenantId := resolveTenant reqTenantId
    role := "user"
    isVerified := false
    verificationToken := some tok
    resetToken := none
    tokenExpires := some (now + verificationTTLms)
    provider := "local"
    avatarURL := none }

/-- Embedding of `registerUser` (auth.controller.js lines 45-149).  `freshId` is the store
id of the inserted document, `tok` the fresh random verification token and
`hashedPassword` the bcrypt digest of the request password. -/
def registerUser (s : List UserRec) (now freshId : Nat)
    (tok hashedPassword reqTenantId : String) (b : RegisterBody) :
    List UserRec × ApiResponse :=
  if !registerSchemaValid b then
    (s, { status := 400, message := registerValidationMsg b })
  else
    match s.find? (emailTenantQ reqTenantId b.email) with
    | some _ =>
      (s, { status := 409, message := "Email already in use in this application" })
    | none =>
      (s ++ [mkRegisteredUser now freshId tok hashedPassword reqTenantId b],
       { status := 201,
         message := "User registered successfully. Please check your email to verify your account." })

/-- Request body of `POST /login`. -/
structure LoginBody where
  email : String
  password : String
deriving DecidableEq

/-- Predicate for `loginSchema.validate(req.body)` succeeding. -/
def loginSchemaValid (b : LoginBody) : Bool :=
  joiEmailValid b.email && b.password ≠ ""

/-- Embedding of `loginUser` (auth.controller.js lines 151-206).  `compare` is
`bcrypt.compare`. -/
def loginUser (s : List UserRec) (compare : String → String → Bool)
    (reqTenantId : String) (b : LoginBody) : ApiResponse :=
  if !loginSchemaValid b then
    { status := 400, message := "Validation error" }
  else
    match s.find? (emailTenantQ reqTenantId b.email) with
    | none => { status := 401, message := "Invalid credentials." }
    | some u =>
      if !u.isVerified then
        { status := 401
          message := "Please verify your email before logging in."
          needsVerification := true }
      else if !compare b.password u.password then
        { status := 401, message := "Invalid credentials." }
      else
        { status := 200
          message := ""
          token := some { userId := u.id, email := u.email, role := u.role,
                          tenantId := resolveTenant reqTenantId } }

/-- A `findOne` + mutate + `save` round trip: replace the first record matching `p` by its
image under `f` (Mongo documents have unique `_id`s, so saving the loaded
document writes back exactly that record). -/
def updateFirst (p : UserRec → Bool) (f : UserRec → UserRec) :
    List UserRec → List UserRec
  | [] => []
  | u :: rest => if p u then f u :: rest else u :: updateFirst p f rest

/-- The `findOne({ verificationToken: token, tokenExpires: { $gt: now } })`
filter of `verifyEmail`. -/
def verifyValidQ (t : String) (now : Nat) (u : UserRec) : Bool :=
  u.verificationToken == some t &&
    (match u.tokenExpires with | some e => decide (now < e) | none => false)

/-- Mutation performed on the record found by `verifyEmail`
(lines 253-255): mark verified and clear the token pair. -/
def markVerified (u : UserRec) : UserRec :=
  { u with isVerified := true, verificationToken := none, tokenExpires := none }

/-- Embedding of `verifyEmail` (auth.controller.js lines 208-296).  The HTML failure pages
are represented by their distinguishing sentences (line 243): a token that
matches some record but not the unexpired filter yields the expired message,
a token matching no record at all yields the invalid message. -/
def verifyEmail (s : List UserRec) (now : Nat) (tok : Option String) :
    List UserRec × ApiResponse :=
  match tok with
  | none => (s, { status := 400, message := "Verification token is required." })
  | some t =>
    match s.find? (verifyValidQ t now) with
    | some _ =>
      (updateFirst (verifyValidQ t now) markVerified s,
       { status := 200, message := "Email Verified Successfully!" })
    | none =>
      if (s.find? (fun u => u.verificationToken == some t)).isSome then
        (s, { status := 400, message := "Verification token has expired." })
      else
        (s, { status := 400, message := "Invalid verification token." })

/-- Mutation performed on the record found by `forgotPassword`
(lines 316-317): store the fresh reset token and its expiry; the
`verificationToken` field is not touched. -/
def mintResetToken (now : Nat) (newTok : String) (u : UserRec) : UserRec :=
  { u with resetToken := some newTok, tokenExpires := some (now + resetTTLms) }

/-- Embedding of `forgotPassword` (auth.controller.js lines 298-385).  `newTok` is the
fresh random reset token. -/
def forgotPassword (s : List UserRec) (now : Nat)
    (newTok reqTenantId : String) (email : Option String) :
    List UserRec × ApiResponse :=
  match email with
  | none => (s, { status := 400, message := "Email is required" })
  | some e =>
    if e = "" then (s, { status := 400, message := "Email is required" })
    else
      match s.find? (emailTenantQ reqTenantId e) with
      | none =>
        (s, { status := 404,
              message := "No user found with this email in this application" })
      | some _ =>
        (updateFirst (emailTenantQ reqTenantId e) (mintResetToken now newTok) s,
         { status := 200,
           message := "Password reset email sent successfully! Check your email for the reset link." })

/-- The `findOne({ resetToken: token, tokenExpires: { $gt: now } })` filter of
`resetPassword`. -/
def resetValidQ (t : String) (now : Nat) (u : UserRec) : Bool :=
  u.resetToken == some t &&
    (match u.tokenExpires with | some e => decide (now < e) | none => false)

/-- Mutation performed on the record found by `resetPassword`
(lines 410-412): overwrite the password hash and clear the token pair. -/
def applyPasswordReset (newHash : String) (u : UserRec) : UserRec :=
  { u with password := newHash, resetToken := none, tokenExpires := none }

/-- Embedding of `resetPassword` (auth.controller.js lines 387-421).  `newHash` is the
bcrypt digest of the new password.  Both the unknown-token and the
expired-token case return the same 400 response (line 406). -/
def resetPassword (s : List UserRec) (now : Nat) (newHash : String)
    (tok pw : Option String) : List UserRec × ApiResponse :=
  match tok, pw with
  | some t, some p =>
    if t = "" || p = "" then
      (s, { status := 400, message := "Token and password are required" })
    else if p.length < 6 then
      (s, { status := 400, message := "Password must be at least 6 characters" })
    else
      match s.find? (resetValidQ t now) with
      | none => (s, { status := 400, message := "Invalid or expired reset token" })
      | some _ =>
        (updateFirst (resetValidQ t now) (applyPasswordReset newHash) s,
         { status := 200, message := "Password reset successful" })
  | _, _ => (s, { status := 400, message := "Token and password are required" })

/-- Outcome of the external `jwt.verify` call: decoded claims, a
`TokenExpiredError`, or any other verification error. -/
inductive JwtOutcome where
  | ok (claims : SessionClaims)
  | expiredErr
  | invalidErr
deriving DecidableEq

/-- Result of a guard middleware: `status = 200` means `next()` was called
with `req.user` set to `user`. -/
structure GuardResult where
  status : Nat
  message : String
  user : Option SessionClaims
deriving DecidableEq

/-- Model of `authHeader.split(' ')[1]`. -/
def bearerToken (h : String) : String :=
  match splitOnChar ' ' h.data with
  | _ :: w :: _ => ⟨w⟩
  | _ => ""

/-- Model of `authHeader.startsWith('Bearer ')`. -/
def startsWithBearer (h : String) : Bool :=
  "Bearer ".data.isPrefixOf h.data

/-- The tenant-aware `authMiddleware` revision (src/unnamed/part_002):
header shape check, `jwt.verify`, then the referenced user must still exist
(`User.findById`, across tenants) and be verified. -/
def authMiddleware (s : List UserRec) (header : Option String)
    (verify : String → JwtOutcome) : GuardResult :=
  match header with
  | none => { status := 401, message := "Unauthorized: No token provided", user := none }
  | some h =>
    if !startsWithBearer h then
      { status := 401, message := "Unauthorized: No token provided", user := none }
    else
      match verify (bearerToken h) with
      | .expiredErr => { status := 401, message := "Unauthorized: Token expired", user := none }
      | .invalidErr => { status := 401, message := "Unauthorized: Invalid token", user := none }
      | .ok claims =>
        match s.find? (fun u => u.id == claims.userId) with
        | none => { status := 401, message := "Unauthorized: User not found", user := none }
        | some u =>
          if !u.isVerified then
            { status := 401, message := "Unauthorized: Email not verified", user := none }
          else
            { status := 200, message := "", user := some claims }

/-- Embedding of `requireRole(role)` (src/middlewares/role.middleware.js): 403 unless
`req.user` is present with exactly the required role. -/
def requireRole (role : String) (user : Option SessionClaims) : GuardResult :=
  match user with
  | none =>
    { status := 403, message := "Forbidden: Insufficient role permissions", user := none }
  | some u =>
    if u.role ≠ role then
      { status := 403, message := "Forbidden: Insufficient role permissions", user := none }
    else
      { status := 200, message := "", user := some u }

/-- A concrete `jwt.verify` behaviour for the guard witness: one valid token. -/
def c4verify : String → JwtOutcome :=
  fun t => if t = "tk" then JwtOutcome.ok
    { userId := 2, email := "bo@x.com", role := "user", tenantId := "shop-1" }
  else JwtOutcome.invalidErr

/-- A user with both a pending verification token and a pending reset token. -/
def samplePendingBoth : UserRec :=
  { id := 3, name := "Cy", email := "cy@x.com", password := "h3",
    tenantId := "default", role := "user", isVerified := false,
    verificationToken := some "vtok", resetToken := some "rtok0",
    tokenExpires := some 100, provider := "local", avatarURL := none }

/-! ### Sample records used by the witnesses -/

def sampleUnverified : UserRec :=
  { id := 1, name := "Al", email := "al@x.com", password := "h1",
    tenantId := "shop-1", role := "user", isVerified := false,
    verificationToken := some "vt", resetToken := none,
    tokenExpires := some 1000, provider := "local", avatarURL := none }

def sampleVerified : UserRec :=
  { id := 2, name := "Bo", email := "bo@x.com", password := "h2",
    tenantId := "shop-1", role := "user", isVerified := true,
    verificationToken := none, resetToken := none,
    tokenExpires := none, provider := "local", avatarURL := none }

/-! ### Helper lemmas -/

theorem updateFirst_decomp {p : UserRec → Bool} (f : UserRec → UserRec)
    {l : List UserRec} {u : UserRec} (h : l.find? p = some u) :
    ∃ l1 l2, l = l1 ++ u :: l2 ∧ (∀ v ∈ l1, p v = false) ∧
      updateFirst p f l = l1 ++ f u :: l2 := by
  induction l with
  | nil => simp at h
  | cons a rest ih =>
    by_cases hp : p a = true
    · have ha : a = u := by
        rw [List.find?_cons, hp] at h
        simpa using h
      subst ha
      exact ⟨[], rest, by simp, by simp, by simp [updateFirst, hp]⟩
    · rw [Bool.not_eq_true] at hp
      have h' : rest.find? p = some u := by
        rw [List.find?_cons, hp] at h
        simpa using h
      obtain ⟨l1, l2, heq, hl1, hupd⟩ := ih h'
      refine ⟨a :: l1, l2, by simp [heq], ?_, by simp [updateFirst, hp, hupd]⟩
      intro v hv
      rcases List.mem_cons.mp hv with hv | hv
      · exact hv ▸ hp
      · exact hl1 v hv

theorem loginUser_eval_unverified {s : List UserRec}
    (compare : String → String → Bool) {t : String} {b : LoginBody} {u : UserRec}
    (hval : loginSchemaValid b = true)
    (hfind : s.find? (emailTenantQ t b.email) = some u)
    (hunv : u.isVerified = false) :
    loginUser s compare t b =
      { status := 401, message := "Please verify your email before logging in.",
        needsVerification := true } := by
  unfold loginUser
  rw [hval]
  simp only [Bool.not_true, Bool.false_eq_true, if_false]
  rw [hfind]
  simp [hunv]

theorem updateFirst_no_holder {q holder : UserRec → Bool} {f : UserRec → UserRec}
    {l : List UserRec} {u : UserRec}
    (hfind : l.find? q = some u)
    (hu : holder u = true)
    (hcount : l.countP holder = 1)
    (hf : holder (f u) = false) :
    ∀ v ∈ updateFirst q f l, holder v = false := by
  obtain ⟨l1, l2, heq, _, hupd⟩ := updateFirst_decomp f hfind
  subst heq
  rw [List.countP_append, List.countP_cons, hu, if_pos rfl] at hcount
  have h1 : l1.countP holder = 0 := by omega
  have h2 : l2.countP holder = 0 := by omega
  intro v hv
  rw [hupd] at hv
  rcases List.mem_append.mp hv with hv | hv
  · exact Bool.not_eq_true _ |>.mp (List.countP_eq_zero.mp h1 v hv)
  · rcases List.mem_cons.mp hv with hv | hv
    · exact hv ▸ hf
    · exact Bool.not_eq_true _ |>.mp (List.countP_eq_zero.mp h2 v hv)

/-! ### Claims about login -/

/-- C3: for every login request whose target user exists in the tenant with
`isVerified = false`, login fails with status 401 carrying the
`needsVerification` flag and issues no session token, regardless of the
supplied password and of what `bcrypt.compare` would return. -/
theorem C3_verification_gate (s : List UserRec) (compare : String → String → Bool)
    (t : String) (b : LoginBody) (u : UserRec)
    (hval : loginSchemaValid b = true)
    (hfind : s.find? (emailTenantQ t b.email) = some u)
    (hunv : u.isVerified = false) :
    loginUser s compare t b =
      { status := 401, message := "Please verify your email before logging in.",
        needsVerification := true, token := none } :=
  loginUser_eval_unverified compare hval hfind hunv

theorem C3_verification_gate_witness :
    loginUser [sampleUnverified] (fun _ _ => true) "shop-1"
      { email := "al@x.com", password := "pw" } =
      { status := 401, message := "Please verify your email before logging in.",
        needsVerification := true, token := none } :=
  C3_verification_gate [sampleUnverified] (fun _ _ => true) "shop-1"
    { email := "al@x.com", password := "pw" } sampleUnverified
    (by decide) (by decide) (by decide)

/-- C5: login with an email matching no user of the tenant and login with an
existing verified user of the tenant but a wrong password produce the very
same response: status 401 with message "Invalid credentials.". -/
theorem C5_enumeration_resistance (s : List UserRec)
    (compare : String → String → Bool) (t e1 e2 p1 p2 : String) (u : UserRec)
    (hv1 : loginSchemaValid { email := e1, password := p1 } = true)
    (hv2 : loginSchemaValid { email := e2, password := p2 } = true)
    (h1 : s.find? (emailTenantQ t e1) = none)
    (h2 : s.find? (emailTenantQ t e2) = some u)
    (hver : u.isVerified = true)
    (hwrong : compare p2 u.password = false) :
    loginUser s compare t { email := e1, password := p1 } =
      loginUser s compare t { email := e2, password := p2 } ∧
    loginUser s compare t { email := e1, password := p1 } =
      { status := 401, message := "Invalid credentials." } := by
  have r1 : loginUser s compare t { email := e1, password := p1 } =
      { status := 401, message := "Invalid credentials." } := by
    unfold loginUser
    rw [hv1]
    simp only [Bool.not_true, Bool.false_eq_true, if_false]
    rw [h1]
  have r2 : loginUser s compare t { email := e2, password := p2 } =
      { status := 401, message := "Invalid credentials." } := by
    unfold loginUser
    rw [hv2]
    simp only [Bool.not_true, Bool.false_eq_true, if_false]
    rw [h2]
    simp [hver, hwrong]
  exact ⟨r1.trans r2.symm, r1⟩

theorem C5_enumeration_resistance_witness :
    loginUser [sampleVerified] (fun _ _ => false) "shop-1"
      { email := "ghost@x.com", password := "pw" } =
      loginUser [sampleVerified] (fun _ _ => false) "shop-1"
        { email := "bo@x.com", password := "pw" } ∧
    loginUser [sampleVerified] (fun _ _ => false) "shop-1"
      { email := "ghost@x.com", password := "pw" } =
      { status := 401, message := "Invalid credentials." } :=
  C5_enumeration_resistance [sampleVerified] (fun _ _ => false) "shop-1"
    "ghost@x.com" "bo@x.com" "pw" "pw" sampleVerified
    (by decide) (by decide) (by decide) (by decide) (by decide) rfl

/-- C9: for an unverified user of the tenant, the login handler answers
before the stored hash is ever compared: two login requests that differ only
in the password field — and even in the comparison function itself — yield
identical responses. -/
theorem C9_gate_before_compare (s : List UserRec)
    (c1 c2 : String → String → Bool) (t e p1 p2 : String) (u : UserRec)
    (hv1 : loginSchemaValid { email := e, password := p1 } = true)
    (hv2 : loginSchemaValid { email := e, password := p2 } = true)
    (hfind : s.find? (emailTenantQ t e) = some u)
    (hunv : u.isVerified = false) :
    loginUser s c1 t { email := e, password := p1 } =
      loginUser s c2 t { email := e, password := p2 } := by
  rw [loginUser_eval_unverified c1 hv1 hfind hunv,
      loginUser_eval_unverified c2 hv2 hfind hunv]

theorem C9_gate_before_compare_witness :
    loginUser [sampleUnverified] (fun _ _ => true) "shop-1"
      { email := "al@x.com", password := "rightpw" } =
      loginUser [sampleUnverified] (fun _ _ => false) "shop-1"
        { email := "al@x.com", password := "wrongpw" } :=
  C9_gate_before_compare [sampleUnverified] (fun _ _ => true) (fun _ _ => false)
    "shop-1" "al@x.com" "rightpw" "wrongpw" sampleUnverified
    (by decide) (by decide) (by decide) (by decide)

/-! ### Register evaluation lemmas -/

theorem registerUser_success {s : List UserRec} {now freshId : Nat}
    {tok hashedPassword t : String} {b : RegisterBody}
    (hval : registerSchemaValid b = true)
    (h0 : s.find? (emailTenantQ t b.email) = none) :
    registerUser s now freshId tok hashedPassword t b =
      (s ++ [mkRegisteredUser now freshId tok hashedPassword t b],
       { status := 201,
         message := "User registered successfully. Please check your email to verify your account." }) := by
  unfold registerUser
  rw [hval]
  simp only [Bool.not_true, Bool.false_eq_true, if_false]
  rw [h0]

theorem registerUser_duplicate {s : List UserRec} {now freshId : Nat}
    {tok hashedPassword t : String} {b : RegisterBody} {u : UserRec}
    (hval : registerSchemaValid b = true)
    (h0 : s.find? (emailTenantQ t b.email) = some u) :
    registerUser s now freshId tok hashedPassword t b =
      (s, { status := 409, message := "Email already in use in this application" }) := by
  unfold registerUser
  rw [hval]
  simp only [Bool.not_true, Bool.false_eq_true, if_false]
  rw [h0]

theorem emailTenantQ_mkRegisteredUser (now freshId : Nat)
    (tok hashedPassword tReg tQuery : String) (b : RegisterBody) :
    emailTenantQ tQuery b.email (mkRegisteredUser now freshId tok hashedPassword tReg b) =
      (resolveTenant tReg == resolveTenant tQuery) := by
  simp [emailTenantQ, mkRegisteredUser]

/-! ### Claims about registration -/

/-- C1: with email `b.email` free in tenants `tA` and `tB` and
`tA ≠ tB` (after tenant resolution), registering in `tA` and then the same
email in `tB` both return 201, while a repeated registration in `tA` returns
409 and leaves the store unchanged (no record is created). -/
theorem C1_tenant_isolation (s : List UserRec)
    (nA nB nC iA iB iC : Nat) (tkA tkB tkC hsA hsB hsC tA tB : String)
    (b : RegisterBody)
    (hval : registerSchemaValid b = true)
    (hne : resolveTenant tA ≠ resolveTenant tB)
    (hA0 : s.find? (emailTenantQ tA b.email) = none)
    (hB0 : s.find? (emailTenantQ tB b.email) = none) :
    (registerUser s nA iA tkA hsA tA b).2.status = 201 ∧
    (registerUser (registerUser s nA iA tkA hsA tA b).1 nB iB tkB hsB tB b).2.status = 201 ∧
    (registerUser (registerUser (registerUser s nA iA tkA hsA tA b).1 nB iB tkB hsB tB b).1
        nC iC tkC hsC tA b).2.status = 409 ∧
    (registerUser (registerUser (registerUser s nA iA tkA hsA tA b).1 nB iB tkB hsB tB b).1
        nC iC tkC hsC tA b).1 =
      (registerUser (registerUser s nA iA tkA hsA tA b).1 nB iB tkB hsB tB b).1 := by
  have e1 := @registerUser_success s nA iA tkA hsA tA b hval hA0
  set uA := mkRegisteredUser nA iA tkA hsA tA b with huA
  have hQB : emailTenantQ tB b.email uA = false := by
    rw [huA, emailTenantQ_mkRegisteredUser]
    exact beq_eq_false_iff_ne.mpr hne
  have hB1 : (s ++ [uA]).find? (emailTenantQ tB b.email) = none := by
    rw [List.find?_append, hB0]
    simp [List.find?, hQB]
  have e2 := @registerUser_success (s ++ [uA]) nB iB tkB hsB tB b hval hB1
  set uB := mkRegisteredUser nB iB tkB hsB tB b with huB
  have hQA : emailTenantQ tA b.email uA = true := by
    rw [huA, emailTenantQ_mkRegisteredUser]
    exact beq_self_eq_true _
  have hA2 : ((s ++ [uA]) ++ [uB]).find? (emailTenantQ tA b.email) = some uA := by
    rw [List.find?_append, List.find?_append, hA0]
    simp [List.find?, hQA]
  have e3 := @registerUser_duplicate ((s ++ [uA]) ++ [uB]) nC iC tkC hsC tA b
    uA hval hA2
  rw [e1]
  simp only
  rw [e2]
  simp only
  rw [e3]
  simp

theorem C1_tenant_isolation_witness :
    (registerUser [] 0 1 "tk1" "hp1" "shop-1"
      { name := "Alice", email := "alice@example.com", password := "secret99" }).2.status = 201 ∧
    (registerUser (registerUser [] 0 1 "tk1" "hp1" "shop-1"
        { name := "Alice", email := "alice@example.com", password := "secret99" }).1
      5 2 "tk2" "hp2" "shop-2"
      { name := "Alice", email := "alice@example.com", password := "secret99" }).2.status = 201 ∧
    (registerUser (registerUser (registerUser [] 0 1 "tk1" "hp1" "shop-1"
          { name := "Alice", email := "alice@example.com", password := "secret99" }).1
        5 2 "tk2" "hp2" "shop-2"
        { name := "Alice", email := "alice@example.com", password := "secret99" }).1
      9 3 "tk3" "hp3" "shop-1"
      { name := "Alice", email := "alice@example.com", password := "secret99" }).2.status = 409 ∧
    (registerUser (registerUser (registerUser [] 0 1 "tk1" "hp1" "shop-1"
          { name := "Alice", email := "alice@example.com", password := "secret99" }).1
        5 2 "tk2" "hp2" "shop-2"
        { name := "Alice", email := "alice@example.com", password := "secret99" }).1
      9 3 "tk3" "hp3" "shop-1"
      { name := "Alice", email := "alice@example.com", password := "secret99" }).1 =
      (registerUser (registerUser [] 0 1 "tk1" "hp1" "shop-1"
          { name := "Alice", email := "alice@example.com", password := "secret99" }).1
        5 2 "tk2" "hp2" "shop-2"
        { name := "Alice", email := "alice@example.com", password := "secret99" }).1 :=
  C1_tenant_isolation [] 0 5 9 1 2 3 "tk1" "tk2" "tk3" "hp1" "hp2" "hp3"
    "shop-1" "shop-2"
    { name := "Alice", email := "alice@example.com", password := "secret99" }
    (by decide) (by decide) (by decide) (by decide)

/-- C10: the register handler reads only `{name, email, password}` from the
request body — whatever `role`/`provider` a caller sends in it leaves the
result unchanged — and on success the one record it appends has
`role = "user"` and `provider = "local"`. -/
theorem C10_register_defaults (s : List UserRec) (now freshId : Nat)
    (tok hashed t : String) (b : RegisterBody) :
    (∀ r p : Option String,
        registerUser s now freshId tok hashed t
            { b with role := r, provider := p } =
          registerUser s now freshId tok hashed t b) ∧
    ((registerUser s now freshId tok hashed t b).2.status = 201 →
      ∃ u : UserRec, (registerUser s now freshId tok hashed t b).1 = s ++ [u] ∧
        u.role = "user" ∧ u.provider = "local") := by
  constructor
  · intro r p
    rfl
  · intro h
    by_cases hv : registerSchemaValid b = true
    · cases hf : s.find? (emailTenantQ t b.email) with
      | some u =>
        rw [registerUser_duplicate hv hf] at h
        simp at h
      | none =>
        rw [registerUser_success hv hf]
        exact ⟨_, rfl, rfl, rfl⟩
    · rw [Bool.not_eq_true] at hv
      unfold registerUser at h
      rw [hv] at h
      simp at h

theorem C10_register_defaults_witness :
    (∀ r p : Option String,
        registerUser [] 0 1 "tk1" "hp1" "shop-1"
            { name := "Alice", email := "alice@example.com", password := "secret99",
              role := r, provider := p } =
          registerUser [] 0 1 "tk1" "hp1" "shop-1"
            { name := "Alice", email := "alice@example.com", password := "secret99" }) ∧
    ((registerUser [] 0 1 "tk1" "hp1" "shop-1"
        { name := "Alice", email := "alice@example.com", password := "secret99" }).2.status = 201 →
      ∃ u : UserRec,
        (registerUser [] 0 1 "tk1" "hp1" "shop-1"
          { name := "Alice", email := "alice@example.com", password := "secret99" }).1 = [] ++ [u] ∧
        u.role = "user" ∧ u.provider = "local") :=
  C10_register_defaults [] 0 1 "tk1" "hp1" "shop-1"
    { name := "Alice", email := "alice@example.com", password := "secret99" }

/-! ### Claims about the verification-token flow -/

/-- C2: if the unexpired-token lookup finds `u` and `u` is the only holder of
verification token `t` (tokens are collision-free by construction), the first
verify call returns 200 and stores the record with `isVerified = true` and
both `verificationToken` and `tokenExpires` cleared; a second call with the
same token, at any later time, returns 400 with the invalid-token message
(not the expired one) and leaves the store unchanged. -/
theorem C2_single_use_token (s : List UserRec) (now now2 : Nat) (t : String)
    (u : UserRec)
    (hfind : s.find? (verifyValidQ t now) = some u)
    (huniq : s.countP (fun v => v.verificationToken == some t) = 1) :
    (verifyEmail s now (some t)).2.status = 200 ∧
    (∃ u2, u2 ∈ (verifyEmail s now (some t)).1 ∧ u2.id = u.id ∧
      u2.isVerified = true ∧ u2.verificationToken = none ∧
      u2.tokenExpires = none) ∧
    (verifyEmail (verifyEmail s now (some t)).1 now2 (some t)).2 =
      { status := 400, message := "Invalid verification token." } ∧
    (verifyEmail (verifyEmail s now (some t)).1 now2 (some t)).1 =
      (verifyEmail s now (some t)).1 := by
  have e1 : verifyEmail s now (some t) =
      (updateFirst (verifyValidQ t now) markVerified s,
       { status := 200, message := "Email Verified Successfully!" }) := by
    simp only [verifyEmail]
    rw [hfind]
  have e1s : (verifyEmail s now (some t)).1 =
      updateFirst (verifyValidQ t now) markVerified s := by rw [e1]
  have hnohold : ∀ v ∈ updateFirst (verifyValidQ t now) markVerified s,
      (v.verificationToken == some t) = false :=
    updateFirst_no_holder hfind
      (by
        have hqu : verifyValidQ t now u = true := List.find?_some hfind
        unfold verifyValidQ at hqu
        exact (Bool.and_eq_true _ _ |>.mp hqu).1) huniq
      (by simp [markVerified])
  have hvalidnone :
      (updateFirst (verifyValidQ t now) markVerified s).find? (verifyValidQ t now2) = none := by
    refine List.find?_eq_none.mpr (fun v hv hq => ?_)
    have h1 := (Bool.and_eq_true _ _ |>.mp hq).1
    rw [hnohold v hv] at h1
    exact Bool.false_ne_true h1
  have hholdnone :
      (updateFirst (verifyValidQ t now) markVerified s).find?
        (fun v => v.verificationToken == some t) = none := by
    refine List.find?_eq_none.mpr (fun v hv hq => ?_)
    rw [hnohold v hv] at hq
    exact Bool.false_ne_true hq
  have e2 : verifyEmail (updateFirst (verifyValidQ t now) markVerified s) now2 (some t) =
      (updateFirst (verifyValidQ t now) markVerified s,
       { status := 400, message := "Invalid verification token." }) := by
    simp only [verifyEmail]
    rw [hvalidnone, hholdnone]
    simp
  refine ⟨by rw [e1], ?_, by rw [e1s, e2], by rw [e1s, e2]⟩
  obtain ⟨l1, l2, _, _, hupd⟩ := updateFirst_decomp markVerified hfind
  rw [e1s, hupd]
  exact ⟨markVerified u, by simp, rfl, rfl, rfl, rfl⟩

theorem C2_single_use_token_witness :
    (verifyEmail [sampleUnverified] 5 (some "vt")).2.status = 200 ∧
    (∃ u2, u2 ∈ (verifyEmail [sampleUnverified] 5 (some "vt")).1 ∧
      u2.id = sampleUnverified.id ∧ u2.isVerified = true ∧
      u2.verificationToken = none ∧ u2.tokenExpires = none) ∧
    (verifyEmail (verifyEmail [sampleUnverified] 5 (some "vt")).1 7 (some "vt")).2 =
      { status := 400, message := "Invalid verification token." } ∧
    (verifyEmail (verifyEmail [sampleUnverified] 5 (some "vt")).1 7 (some "vt")).1 =
      (verifyEmail [sampleUnverified] 5 (some "vt")).1 :=
  C2_single_use_token [sampleUnverified] 5 7 "vt" sampleUnverified
    (by decide) (by decide)

/-! ### Claim about the session-verification guard -/

/-- C4: the guard admits exactly when the bearer header is well-formed, the
JWT verifies, the referenced user still exists in the store and is verified;
every failure yields 401; the expired-token message appears exactly in the
expired case (distinguishing it from the no-token / invalid / user-not-found
/ not-verified messages); and a role mismatch on an admitted user turns into
403 via `requireRole`. -/
theorem C4_session_guard (s : List UserRec) (header : Option String)
    (verify : String → JwtOutcome) :
    ((authMiddleware s header verify).status = 200 ↔
      ∃ h claims u, header = some h ∧ startsWithBearer h = true ∧
        verify (bearerToken h) = JwtOutcome.ok claims ∧
        s.find? (fun v => v.id == claims.userId) = some u ∧
        u.isVerified = true) ∧
    ((authMiddleware s header verify).status = 200 ∨
      (authMiddleware s header verify).status = 401) ∧
    ((authMiddleware s header verify).message = "Unauthorized: Token expired" ↔
      ∃ h, header = some h ∧ startsWithBearer h = true ∧
        verify (bearerToken h) = JwtOutcome.expiredErr) ∧
    (∀ role claims, (authMiddleware s header verify).user = some claims →
      claims.role ≠ role →
      requireRole role (authMiddleware s header verify).user =
        { status := 403, message := "Forbidden: Insufficient role permissions",
          user := none }) := by
  cases header with
  | none => simp [authMiddleware]
  | some h =>
    by_cases hb : startsWithBearer h = true
    · cases hv : verify (bearerToken h) with
      | expiredErr => simp [authMiddleware, hb, hv]
      | invalidErr => simp [authMiddleware, hb, hv]
      | ok claims =>
        cases hf : s.find? (fun v => v.id == claims.userId) with
        | none => simp [authMiddleware, hb, hv, hf]
        | some u =>
          by_cases hu : u.isVerified = true
          · refine ⟨?_, ?_, ?_, ?_⟩
            · simp only [authMiddleware, hb, hv, hf, hu]
              simp only [Bool.not_true, if_true, if_false]
              constructor
              · intro _
                exact ⟨h, claims, u, rfl, hb, hv, hf, hu⟩
              · intro _
                rfl
            · left
              simp [authMiddleware, hb, hv, hf, hu]
            · simp [authMiddleware, hb, hv, hf, hu]
            · intro role claims2 hcl hrole
              simp [authMiddleware, hb, hv, hf, hu] at hcl
              simp [authMiddleware, hb, hv, hf, hu, requireRole, hcl ▸ hrole]
          · simp [authMiddleware, hb, hv, hf, hu]
    · simp [authMiddleware, hb]

theorem C4_session_guard_witness :
    (authMiddleware [sampleVerified] (some "Bearer tk") c4verify).status = 200 ∧
    requireRole "admin" (authMiddleware [sampleVerified] (some "Bearer tk") c4verify).user =
      { status := 403, message := "Forbidden: Insufficient role permissions",
        user := none } := by
  have H := C4_session_guard [sampleVerified] (some "Bearer tk") c4verify
  refine ⟨?_, ?_⟩
  · exact H.1.mpr ⟨"Bearer tk",
      { userId := 2, email := "bo@x.com", role := "user", tenantId := "shop-1" },
      sampleVerified, rfl, by decide, by decide, by decide, by decide⟩
  · exact H.2.2.2 "admin"
      { userId := 2, email := "bo@x.com", role := "user", tenantId := "shop-1" }
      (by decide) (by decide)

/-! ### Claims about forgot-password and token expiry messaging -/

/-- C6 counterexample: after a successful Forgot Password call (which
overwrites `resetToken` and refreshes the shared `tokenExpires`), the
previously pending verification token still validates in Verify Email — the
verify call returns 200, contradicting the claim that it can no longer
complete its flow. -/
theorem C6_counterexample :
    (forgotPassword [samplePendingBoth] 50 "rtok1" "" (some "cy@x.com")).2.status = 200 ∧
    (verifyEmail
        (forgotPassword [samplePendingBoth] 50 "rtok1" "" (some "cy@x.com")).1
        60 (some "vtok")).2.status = 200 := by decide

/-- C6 amended: a successful Forgot Password call overwrites the pending
reset token — the record keeps `resetToken = newTok` and the old reset token
no longer validates in Reset Password — and refreshes `tokenExpires`, but it
leaves `verificationToken` untouched, so only the reset purpose is
invalidated. -/
theorem C6_reset_overwrite (s : List UserRec) (now now2 : Nat)
    (newTok r0 newHash t e : String) (u : UserRec)
    (he : e ≠ "")
    (hr0 : r0 ≠ "")
    (hfind : s.find? (emailTenantQ t e) = some u)
    (hu : u.resetToken = some r0)
    (hne : r0 ≠ newTok)
    (huniq : s.countP (fun v => v.resetToken == some r0) = 1) :
    (forgotPassword s now newTok t (some e)).2.status = 200 ∧
    (∃ u2, u2 ∈ (forgotPassword s now newTok t (some e)).1 ∧ u2.id = u.id ∧
      u2.resetToken = some newTok ∧
      u2.verificationToken = u.verificationToken ∧
      u2.tokenExpires = some (now + resetTTLms)) ∧
    (resetPassword (forgotPassword s now newTok t (some e)).1 now2 newHash
        (some r0) (some "newpass99")).2 =
      { status := 400, message := "Invalid or expired reset token" } ∧
    (resetPassword (forgotPassword s now newTok t (some e)).1 now2 newHash
        (some r0) (some "newpass99")).1 =
      (forgotPassword s now newTok t (some e)).1 := by
  have e1 : forgotPassword s now newTok t (some e) =
      (updateFirst (emailTenantQ t e) (mintResetToken now newTok) s,
       { status := 200,
         message := "Password reset email sent successfully! Check your email for the reset link." }) := by
    simp only [forgotPassword]
    rw [if_neg he, hfind]
  have e1s : (forgotPassword s now newTok t (some e)).1 =
      updateFirst (emailTenantQ t e) (mintResetToken now newTok) s := by rw [e1]
  have hnohold : ∀ v ∈ updateFirst (emailTenantQ t e) (mintResetToken now newTok) s,
      (v.resetToken == some r0) = false :=
    updateFirst_no_holder hfind (by rw [hu]; exact beq_self_eq_true _) huniq
      (by simp [mintResetToken]; exact fun hh => hne hh.symm)
  have hvalidnone :
      (updateFirst (emailTenantQ t e) (mintResetToken now newTok) s).find?
        (resetValidQ r0 now2) = none := by
    refine List.find?_eq_none.mpr (fun v hv hq => ?_)
    unfold resetValidQ at hq
    have h1 := (Bool.and_eq_true _ _ |>.mp hq).1
    rw [hnohold v hv] at h1
    exact Bool.false_ne_true h1
  have e2 : resetPassword
      (updateFirst (emailTenantQ t e) (mintResetToken now newTok) s) now2 newHash
      (some r0) (some "newpass99") =
      (updateFirst (emailTenantQ t e) (mintResetToken now newTok) s,
       { status := 400, message := "Invalid or expired reset token" }) := by
    simp only [resetPassword]
    rw [if_neg (by simp [hr0]), if_neg (by decide), hvalidnone]
  refine ⟨by rw [e1], ?_, by rw [e1s, e2], by rw [e1s, e2]⟩
  obtain ⟨l1, l2, _, _, hupd⟩ := updateFirst_decomp (mintResetToken now newTok) hfind
  rw [e1s, hupd]
  exact ⟨mintResetToken now newTok u, by simp, rfl, rfl, rfl, rfl⟩

theorem C6_reset_overwrite_witness :
    (forgotPassword [samplePendingBoth] 50 "rtok1" "" (some "cy@x.com")).2.status = 200 ∧
    (∃ u2, u2 ∈ (forgotPassword [samplePendingBoth] 50 "rtok1" "" (some "cy@x.com")).1 ∧
      u2.id = samplePendingBoth.id ∧
      u2.resetToken = some "rtok1" ∧
      u2.verificationToken = samplePendingBoth.verificationToken ∧
      u2.tokenExpires = some (50 + resetTTLms)) ∧
    (resetPassword (forgotPassword [samplePendingBoth] 50 "rtok1" "" (some "cy@x.com")).1
        60 "nh" (some "rtok0") (some "newpass99")).2 =
      { status := 400, message := "Invalid or expired reset token" } ∧
    (resetPassword (forgotPassword [samplePendingBoth] 50 "rtok1" "" (some "cy@x.com")).1
        60 "nh" (some "rtok0") (some "newpass99")).1 =
      (forgotPassword [samplePendingBoth] 50 "rtok1" "" (some "cy@x.com")).1 :=
  C6_reset_overwrite [samplePendingBoth] 50 60 "rtok1" "rtok0" "nh" "" "cy@x.com"
    samplePendingBoth (by decide) (by decide) (by decide) (by decide)
    (by decide) (by decide)

/-- C7 counterexample: for Reset Password the expired case (token `"rtok0"`
is stored on the record but its `tokenExpires = 100` lies before `now = 200`)
and the unknown-token case (`"zz"` matches no record) return the very same
400 response — the claim that their messages differ is false. -/
theorem C7_counterexample :
    (resetPassword [samplePendingBoth] 200 "nh" (some "rtok0") (some "abcdef")).2 =
      (resetPassword [samplePendingBoth] 200 "nh" (some "zz") (some "abcdef")).2 ∧
    (resetPassword [samplePendingBoth] 200 "nh" (some "rtok0") (some "abcdef")).2.status
      = 400 := by decide

/-- C7 amended: for Verify Email an expired token and an unknown token are
rejected with 400 and distinct messages; for Reset Password both cases are
rejected with 400 but with the identical message
"Invalid or expired reset token". -/
theorem C7_expired_vs_invalid (s : List UserRec) (now : Nat)
    (tExp tInv rExp rInv newHash : String) (u : UserRec)
    (hexp : s.find? (fun v => v.verificationToken == some tExp) = some u)
    (hexpno : s.find? (verifyValidQ tExp now) = none)
    (hinv : s.find? (fun v => v.verificationToken == some tInv) = none)
    (hrE : rExp ≠ "") (hrI : rInv ≠ "")
    (hrexp : s.find? (resetValidQ rExp now) = none)
    (hrinv : s.find? (resetValidQ rInv now) = none) :
    (verifyEmail s now (some tExp)).2 =
      { status := 400, message := "Verification token has expired." } ∧
    (verifyEmail s now (some tInv)).2 =
      { status := 400, message := "Invalid verification token." } ∧
    (verifyEmail s now (some tExp)).2.message ≠
      (verifyEmail s now (some tInv)).2.message ∧
    (resetPassword s now newHash (some rExp) (some "abcdef")).2 =
      { status := 400, message := "Invalid or expired reset token" } ∧
    (resetPassword s now newHash (some rInv) (some "abcdef")).2 =
      { status := 400, message := "Invalid or expired reset token" } ∧
    (resetPassword s now newHash (some rExp) (some "abcdef")).2.message =
      (resetPassword s now newHash (some rInv) (some "abcdef")).2.message := by
  have hinvno : s.find? (verifyValidQ tInv now) = none := by
    refine List.find?_eq_none.mpr (fun v hv hq => ?_)
    unfold verifyValidQ at hq
    have h1 := (Bool.and_eq_true _ _ |>.mp hq).1
    have h2 := List.find?_eq_none.mp hinv v hv
    exact h2 h1
  have ev1 : (verifyEmail s now (some tExp)).2 =
      { status := 400, message := "Verification token has expired." } := by
    simp only [verifyEmail]
    rw [hexpno, hexp]
    simp
  have ev2 : (verifyEmail s now (some tInv)).2 =
      { status := 400, message := "Invalid verification token." } := by
    simp only [verifyEmail]
    rw [hinvno, hinv]
    simp
  have er1 : (resetPassword s now newHash (some rExp) (some "abcdef")).2 =
      { status := 400, message := "Invalid or expired reset token" } := by
    simp only [resetPassword]
    rw [if_neg (by simp [hrE]), if_neg (by decide), hrexp]
  have er2 : (resetPassword s now newHash (some rInv) (some "abcdef")).2 =
      { status := 400, message := "Invalid or expired reset token" } := by
    simp only [resetPassword]
    rw [if_neg (by simp [hrI]), if_neg (by decide), hrinv]
  refine ⟨ev1, ev2, ?_, er1, er2, ?_⟩
  · rw [ev1, ev2]
    decide
  · rw [er1, er2]

theorem C7_expired_vs_invalid_witness :
    (verifyEmail [samplePendingBoth] 200 (some "vtok")).2 =
      { status := 400, message := "Verification token has expired." } ∧
    (verifyEmail [samplePendingBoth] 200 (some "zz2")).2 =
      { status := 400, message := "Invalid verification token." } ∧
    (verifyEmail [samplePendingBoth] 200 (some "vtok")).2.message ≠
      (verifyEmail [samplePendingBoth] 200 (some "zz2")).2.message ∧
    (resetPassword [samplePendingBoth] 200 "nh" (some "rtok0") (some "abcdef")).2 =
      { status := 400, message := "Invalid or expired reset token" } ∧
    (resetPassword [samplePendingBoth] 200 "nh" (some "zz")  (some "abcdef")).2 =
      { status := 400, message := "Invalid or expired reset token" } ∧
    (resetPassword [samplePendingBoth] 200 "nh" (some "rtok0") (some "abcdef")).2.message =
      (resetPassword [samplePendingBoth] 200 "nh" (some "zz") (some "abcdef")).2.message :=
  C7_expired_vs_invalid [samplePendingBoth] 200 "vtok" "zz2" "rtok0" "zz" "nh"
    samplePendingBoth (by decide) (by decide) (by decide) (by decide)
    (by decide) (by decide) (by decide)

/-- C8 counterexample: in the embedded controller revision both TTLs are
24 hours, so the verification interval minted by a concrete Register call is
not strictly greater than the reset interval minted by a concrete Forgot
Password call — they are equal. -/
theorem C8_counterexample :
    verificationTTLms = resetTTLms ∧
    ¬ (resetTTLms < verificationTTLms) ∧
    (registerUser [] 0 1 "tk" "hp" "shop-1"
      { name := "Bob", email := "bob@x.com", password := "secret99" }).1.map
        (fun v => v.tokenExpires) = [some (0 + verificationTTLms)] ∧
    (forgotPassword [sampleVerified] 0 "rk" "shop-1" (some "bo@x.com")).1.map
        (fun v => v.tokenExpires) = [some (0 + resetTTLms)] := by decide

/-- C8 amended: the verification-token TTL minted by Register and the
reset-token TTL minted by Forgot Password are both 24 hours — equal, not
strictly ordered. -/
theorem C8_ttls_equal :
    verificationTTLms = 24 * 60 * 60 * 1000 ∧
    resetTTLms = 24 * 60 * 60 * 1000 ∧
    verificationTTLms = resetTTLms ∧
    (∀ (now freshId : Nat) (tok hp t : String) (b : RegisterBody),
      (mkRegisteredUser now freshId tok hp t b).tokenExpires =
        some (now + verificationTTLms)) ∧
    (∀ (now : Nat) (tok : String) (u : UserRec),
      (mintResetToken now tok u).tokenExpires = some (now + resetTTLms)) :=
  ⟨rfl, rfl, rfl, fun _ _ _ _ _ _ => rfl, fun _ _ _ => rfl⟩
